import Mathlib

/-!
Verification of the installation resolution and build-orchestration pipeline
of `helios_solc` (`install.py`, `exceptions.py`).

The embedding is shallow: the pure path utilities become pure Lean functions
over `String`; the effectful pipeline (process invocation, filesystem
creation, working-directory changes) is embedded as explicit state passing
over an `FState` record that tracks the set of existing filesystem paths,
the current working directory, and a trace of the observable side effects.
External collaborators (the OS, git, wget, cmake, make, sh) are abstracted
by a `Config` oracle giving each external command an exit code and a
captured combined output stream.
-/

namespace HeliosSolc

/-! ## Python standard-library path primitives (posixpath semantics) -/

/-- Model of `os.path.join(a, b)` (posixpath, two components): if `b` is
absolute the result is `b`; if `a` is empty or ends with the separator the
components are concatenated directly; otherwise a separator is inserted. -/
def joinPath (a b : String) : String :=
  if b.data.head? = some '/' then b
  else if a.data = [] ∨ a.data.reverse.head? = some '/' then a ++ b
  else a ++ "/" ++ b

/-- Model of `os.path.expanduser` for the paths this code produces, which
always have the shape `~/...`: the leading `~` is replaced by the home
directory.  Other shapes are returned unchanged. -/
def expanduser (home path : String) : String :=
  match path.data with
  | '~' :: '/' :: rest => home ++ String.mk ('/' :: rest)
  | _ => path

/-- Model of `str.startswith`. -/
def startswith (s pre : String) : Bool :=
  pre.data.isPrefixOf s.data

/-! ## Configuration: environment and external-process oracle

`install.py` reads `os.environ['SOLC_BASE_INSTALL_PATH']`, expands `~`, asks
the OS whether executables are on the search path, and runs external
commands.  All of these ambient inputs are collected in a `Config`. -/

structure Config where
  /-- The `SOLC_BASE_INSTALL_PATH` environment variable, when set. -/
  solcBaseInstallPath : Option String
  /-- The directory `os.path.expanduser` substitutes for `~`. -/
  home : String
  /-- Whether `is_executable_available` finds the given program on PATH. -/
  executableAvailable : String → Bool
  /-- Exit status of each external command vector. -/
  exitCode : List String → Int
  /-- Captured stdout+stderr stream of each external command vector. -/
  combinedOutput : List String → String

/-! ## Constants from `install.py` -/

def V100_5_12 : String := "v100.5.12"

def V100_5_15 : String := "v100.5.15"

def LINUX : String := "linux"

def OSX : String := "darwin"

def WINDOWS : String := "win32"

def SOLIDITY_GIT_URI : String := "https://github.com/Helios-Protocol/solidity.git"

/-! ## Path Resolver (`install.py` lines 122-179) -/

/-- `get_base_install_path(identifier)`: `<root>/solc-<identifier>` where the
root is `SOLC_BASE_INSTALL_PATH` when set, else `~/.py-helios-solc`. -/
def get_base_install_path (cfg : Config) (identifier : String) : String :=
  match cfg.solcBaseInstallPath with
  | some root => joinPath root ("solc-" ++ identifier)
  | none =>
      expanduser cfg.home (joinPath (joinPath "~" ".py-helios-solc") ("solc-" ++ identifier))

/-- `get_repository_path(identifier)`: `<base>/source`. -/
def get_repository_path (cfg : Config) (identifier : String) : String :=
  joinPath (get_base_install_path cfg identifier) "source"

/-- `get_release_zipfile_path(identifier)`: `<base>/release.zip`. -/
def get_release_zipfile_path (cfg : Config) (identifier : String) : String :=
  joinPath (get_base_install_path cfg identifier) "release.zip"

/-- `get_extract_path(identifier)`: `<base>/bin`. -/
def get_extract_path (cfg : Config) (identifier : String) : String :=
  joinPath (get_base_install_path cfg identifier) "bin"

/-- `get_executable_path(identifier)`: `<base>/bin/solc`. -/
def get_executable_path (cfg : Config) (identifier : String) : String :=
  joinPath (get_extract_path cfg identifier) "solc"

/-- `get_build_dir(identifier)`: `<base>/source/build`. -/
def get_build_dir (cfg : Config) (identifier : String) : String :=
  joinPath (get_repository_path cfg identifier) "build"

/-- `get_built_executable_path(identifier)`: `<base>/source/build/solc/solc`. -/
def get_built_executable_path (cfg : Config) (identifier : String) : String :=
  joinPath (joinPath (get_build_dir cfg identifier) "solc") "solc"

/-- All paths the Path Resolver computes for one version identifier. -/
def installPaths (cfg : Config) (identifier : String) : List String :=
  [get_base_install_path cfg identifier,
   get_repository_path cfg identifier,
   get_release_zipfile_path cfg identifier,
   get_extract_path cfg identifier,
   get_executable_path cfg identifier,
   get_build_dir cfg identifier,
   get_built_executable_path cfg identifier]

/-- The paths derived from the base install path (all of `installPaths`
except the base itself). -/
def derivedPaths (cfg : Config) (identifier : String) : List String :=
  [get_repository_path cfg identifier,
   get_release_zipfile_path cfg identifier,
   get_extract_path cfg identifier,
   get_executable_path cfg identifier,
   get_build_dir cfg identifier,
   get_built_executable_path cfg identifier]

/-! ## Structure lemmas for the Path Resolver -/

/-- The per-configuration constant string that every base install path
starts with: `get_base_install_path cfg v = rootOf cfg ++ "solc-" ++ v`. -/
def rootOf (cfg : Config) : String :=
  match cfg.solcBaseInstallPath with
  | some root => if root.data = [] ∨ root.data.reverse.head? = some '/' then root else root ++ "/"
  | none => cfg.home ++ "/.py-helios-solc/"

lemma solc_dash_data (v : String) :
    ("solc-" ++ v).data = 's' :: 'o' :: 'l' :: 'c' :: '-' :: v.data := by
  rw [String.data_append]; rfl

lemma joinPath_of_conds {a b : String} (hb : b.data.head? ≠ some '/')
    (ha : ¬(a.data = [] ∨ a.data.reverse.head? = some '/')) :
    joinPath a b = a ++ "/" ++ b := by
  unfold joinPath; rw [if_neg hb, if_neg ha]

lemma joinPath_of_endslash {a b : String} (hb : b.data.head? ≠ some '/')
    (ha : a.data = [] ∨ a.data.reverse.head? = some '/') :
    joinPath a b = a ++ b := by
  unfold joinPath; rw [if_neg hb, if_pos ha]

lemma solc_dash_head (v : String) : (("solc-" ++ v).data).head? ≠ some '/' := by
  rw [solc_dash_data]; simp

lemma expanduser_tilde (home : String) (rest : List Char) :
    expanduser home (String.mk ('~' :: '/' :: rest)) = home ++ String.mk ('/' :: rest) := rfl

lemma get_base_install_path_data (cfg : Config) (v : String) :
    (get_base_install_path cfg v).data =
      (rootOf cfg).data ++ ("solc-".data ++ v.data) := by
  cases hcfg : cfg.solcBaseInstallPath with
  | some root =>
      by_cases h : root.data = [] ∨ root.data.reverse.head? = some '/'
      · simp only [get_base_install_path, rootOf, hcfg]
        rw [joinPath_of_endslash (solc_dash_head v) h, if_pos h]
        simp [String.data_append]
      · simp only [get_base_install_path, rootOf, hcfg]
        rw [joinPath_of_conds (solc_dash_head v) h, if_neg h]
        simp [String.data_append]
  | none =>
      simp only [get_base_install_path, rootOf, hcfg]
      have h0 : joinPath "~" ".py-helios-solc" = "~/.py-helios-solc" := by
        rw [joinPath_of_conds (by decide) (by decide)]; decide
      rw [h0, joinPath_of_conds (solc_dash_head v) (by decide)]
      have harg : "~/.py-helios-solc" ++ "/" ++ ("solc-" ++ v) =
          String.mk ('~' :: '/' :: (".py-helios-solc/solc-".data ++ v.data)) := by
        apply String.ext
        rw [String.data_append, String.data_append, String.data_append]
        simp only [List.append_assoc]
        rfl
      rw [harg, expanduser_tilde, String.data_append, String.data_append]
      simp only [List.append_assoc]
      rfl

lemma base_data_ne_nil (cfg : Config) (v : String) :
    (get_base_install_path cfg v).data ≠ [] := by
  rw [get_base_install_path_data]
  intro h
  have := congrArg List.length h
  simp at this

lemma base_reverse_head (cfg : Config) (v : String) (hv : '/' ∉ v.data) :
    (get_base_install_path cfg v).data.reverse.head? ≠ some '/' := by
  rw [get_base_install_path_data, List.reverse_append, List.reverse_append]
  cases hvd : v.data.reverse with
  | nil =>
      have : "solc-".data.reverse = ['-', 'c', 'l', 'o', 's'] := rfl
      simp [hvd, this]
  | cons c t =>
      have hc : c ∈ v.data := by
        rw [← List.mem_reverse, hvd]; exact List.mem_cons_self c t
      simp [hvd]
      exact fun h => hv (h ▸ hc)

lemma joinPath_data_cons {a b : String} (hb : b.data.head? ≠ some '/')
    (hne : a.data ≠ []) (hlast : a.data.reverse.head? ≠ some '/') :
    (joinPath a b).data = a.data ++ '/' :: b.data := by
  rw [joinPath_of_conds hb (by rw [not_or]; exact ⟨hne, hlast⟩)]
  rw [String.data_append, String.data_append]
  simp

lemma data_ne_nil_of_suffix {p : String} {A S : List Char} (hp : p.data = A ++ S)
    (hS : S ≠ []) : p.data ≠ [] := by
  rw [hp]
  intro h
  rcases List.append_eq_nil.mp h with ⟨_, h2⟩
  exact hS h2

lemma rev_head_of_suffix {p : String} {A S : List Char} (hp : p.data = A ++ S)
    (c : Char) (hS : S.reverse.head? = some c) (hc : c ≠ '/') :
    p.data.reverse.head? ≠ some '/' := by
  rw [hp, List.reverse_append]
  cases hrev : S.reverse with
  | nil => rw [hrev] at hS; simp at hS
  | cons d t =>
      rw [hrev] at hS
      simp only [List.head?_cons, Option.some.injEq] at hS
      simp only [List.cons_append, List.head?_cons, ne_eq, Option.some.injEq]
      rw [hS]
      exact hc

lemma repo_data (cfg : Config) (v : String) (hv : '/' ∉ v.data) :
    (get_repository_path cfg v).data =
      (get_base_install_path cfg v).data ++ "/source".data := by
  unfold get_repository_path
  rw [joinPath_data_cons (by decide) (base_data_ne_nil cfg v) (base_reverse_head cfg v hv)]

lemma zip_data (cfg : Config) (v : String) (hv : '/' ∉ v.data) :
    (get_release_zipfile_path cfg v).data =
      (get_base_install_path cfg v).data ++ "/release.zip".data := by
  unfold get_release_zipfile_path
  rw [joinPath_data_cons (by decide) (base_data_ne_nil cfg v) (base_reverse_head cfg v hv)]

lemma extract_data (cfg : Config) (v : String) (hv : '/' ∉ v.data) :
    (get_extract_path cfg v).data =
      (get_base_install_path cfg v).data ++ "/bin".data := by
  unfold get_extract_path
  rw [joinPath_data_cons (by decide) (base_data_ne_nil cfg v) (base_reverse_head cfg v hv)]

lemma exec_data (cfg : Config) (v : String) (hv : '/' ∉ v.data) :
    (get_executable_path cfg v).data =
      (get_base_install_path cfg v).data ++ "/bin/solc".data := by
  have he := extract_data cfg v hv
  unfold get_executable_path
  rw [joinPath_data_cons (by decide)
        (data_ne_nil_of_suffix he (by decide))
        (rev_head_of_suffix he 'n' (by decide) (by decide)),
      he, List.append_assoc]
  rfl

lemma build_dir_data (cfg : Config) (v : String) (hv : '/' ∉ v.data) :
    (get_build_dir cfg v).data =
      (get_base_install_path cfg v).data ++ "/source/build".data := by
  have hr := repo_data cfg v hv
  unfold get_build_dir
  rw [joinPath_data_cons (by decide)
        (data_ne_nil_of_suffix hr (by decide))
        (rev_head_of_suffix hr 'e' (by decide) (by decide)),
      hr, List.append_assoc]
  rfl

lemma built_exec_data (cfg : Config) (v : String) (hv : '/' ∉ v.data) :
    (get_built_executable_path cfg v).data =
      (get_base_install_path cfg v).data ++ "/source/build/solc/solc".data := by
  have hb := build_dir_data cfg v hv
  unfold get_built_executable_path
  have hmid : (joinPath (get_build_dir cfg v) "solc").data =
      (get_base_install_path cfg v).data ++ "/source/build/solc".data := by
    rw [joinPath_data_cons (by decide)
          (data_ne_nil_of_suffix hb (by decide))
          (rev_head_of_suffix hb 'd' (by decide) (by decide)),
        hb, List.append_assoc]
    rfl
  rw [joinPath_data_cons (by decide)
        (data_ne_nil_of_suffix hmid (by decide))
        (rev_head_of_suffix hmid 'c' (by decide) (by decide)),
      hmid, List.append_assoc]
  rfl

/-- The path suffixes under the base install path, one per Path Resolver
function (the empty suffix stands for the base install path itself). -/
def suffixStrings : List String :=
  ["", "/source", "/release.zip", "/bin", "/bin/solc", "/source/build",
   "/source/build/solc/solc"]

lemma suffixStrings_prop : ∀ s ∈ suffixStrings, s.data = [] ∨ s.data.head? = some '/' := by
  decide

lemma mem_installPaths_decomp (cfg : Config) (v : String) (hv : '/' ∉ v.data)
    {p : String} (hp : p ∈ installPaths cfg v) :
    ∃ s ∈ suffixStrings,
      p.data = (rootOf cfg).data ++ ("solc-".data ++ (v.data ++ s.data)) := by
  have hbase := get_base_install_path_data cfg v
  simp only [installPaths, List.mem_cons, List.not_mem_nil, or_false] at hp
  rcases hp with h | h | h | h | h | h | h
  · exact ⟨"", by decide, by rw [h, hbase]; simp⟩
  · exact ⟨"/source", by decide, by rw [h, repo_data cfg v hv, hbase]; simp⟩
  · exact ⟨"/release.zip", by decide, by rw [h, zip_data cfg v hv, hbase]; simp⟩
  · exact ⟨"/bin", by decide, by rw [h, extract_data cfg v hv, hbase]; simp⟩
  · exact ⟨"/bin/solc", by decide, by rw [h, exec_data cfg v hv, hbase]; simp⟩
  · exact ⟨"/source/build", by decide, by rw [h, build_dir_data cfg v hv, hbase]; simp⟩
  · exact ⟨"/source/build/solc/solc", by decide,
      by rw [h, built_exec_data cfg v hv, hbase]; simp⟩

lemma takeWhile_slashfree {v s : List Char} (hv : '/' ∉ v)
    (hs : s = [] ∨ s.head? = some '/') :
    (v ++ s).takeWhile (fun c => c != '/') = v := by
  induction v with
  | nil =>
      rcases hs with h | h
      · subst h; rfl
      · cases s with
        | nil => rfl
        | cons c t =>
            simp only [List.head?_cons, Option.some.injEq] at h
            subst h
            simp [List.takeWhile_cons]
  | cons c v ih =>
      have hc : c ≠ '/' := fun h => hv (h ▸ List.mem_cons_self c v)
      have hv' : '/' ∉ v := fun h => hv (List.mem_cons_of_mem _ h)
      simp only [List.cons_append, List.takeWhile_cons]
      simp [hc, ih hv']

/-- A sample configuration with `SOLC_BASE_INSTALL_PATH=/opt/solc` and
every external command succeeding with empty output. -/
def sampleCfg : Config where
  solcBaseInstallPath := some "/opt/solc"
  home := "/home/user"
  executableAvailable := fun _ => true
  exitCode := fun _ => 0
  combinedOutput := fun _ => ""

/-- C1 counterexample: for the distinct non-empty version identifiers
`"a"` and `"a/source"`, the Path Resolver does not produce disjoint path
sets — the repository path of `"a"` coincides with the base install path of
`"a/source"`.  So the disjointness invariant fails for arbitrary non-empty
identifier strings. -/
theorem c1_counterexample :
    ("a" : String) ≠ "a/source" ∧ ("a" : String) ≠ "" ∧ ("a/source" : String) ≠ "" ∧
    get_repository_path sampleCfg "a" ∈ installPaths sampleCfg "a" ∧
    get_base_install_path sampleCfg "a/source" ∈ installPaths sampleCfg "a/source" ∧
    get_repository_path sampleCfg "a" = get_base_install_path sampleCfg "a/source" := by
  refine ⟨by decide, by decide, by decide, ?_, ?_, by decide⟩
  · simp [installPaths]
  · simp [installPaths]

/-- C1 (amended): for every configuration and every pair of distinct
version identifiers that contain no path separator `/`, the sets of paths
computed by the Path Resolver functions (base install path, repository
path, release zipfile path, extract path, executable path, build dir,
built executable path) are disjoint: no path derived from the one equals
any path derived from the other. -/
theorem c1_paths_disjoint (cfg : Config) (v1 v2 : String) (hne : v1 ≠ v2)
    (h1 : '/' ∉ v1.data) (h2 : '/' ∉ v2.data)
    (p q : String) (hp : p ∈ installPaths cfg v1) (hq : q ∈ installPaths cfg v2) :
    p ≠ q := by
  obtain ⟨s1, hs1, hd1⟩ := mem_installPaths_decomp cfg v1 h1 hp
  obtain ⟨s2, hs2, hd2⟩ := mem_installPaths_decomp cfg v2 h2 hq
  intro hpq
  have hdata : (rootOf cfg).data ++ ("solc-".data ++ (v1.data ++ s1.data)) =
      (rootOf cfg).data ++ ("solc-".data ++ (v2.data ++ s2.data)) := by
    rw [← hd1, ← hd2, hpq]
  have hmid := List.append_cancel_left hdata
  have htail := List.append_cancel_left hmid
  have hv12 : v1.data = v2.data := by
    have t1 := takeWhile_slashfree h1 (suffixStrings_prop s1 hs1)
    have t2 := takeWhile_slashfree h2 (suffixStrings_prop s2 hs2)
    rw [← t1, ← t2, htail]
  exact hne (String.ext hv12)

/-- C1 witness: the amended disjointness theorem applied to the two
registered versions at a concrete configuration and a concrete pair of
paths. -/
theorem c1_paths_disjoint_witness :
    (V100_5_12 ≠ V100_5_15 ∧ '/' ∉ V100_5_12.data ∧ '/' ∉ V100_5_15.data ∧
      get_executable_path sampleCfg V100_5_12 ∈ installPaths sampleCfg V100_5_12 ∧
      get_executable_path sampleCfg V100_5_15 ∈ installPaths sampleCfg V100_5_15) ∧
    get_executable_path sampleCfg V100_5_12 ≠ get_executable_path sampleCfg V100_5_15 :=
  ⟨⟨by decide, by decide, by decide, by simp [installPaths], by simp [installPaths]⟩,
   c1_paths_disjoint sampleCfg V100_5_12 V100_5_15 (by decide) (by decide) (by decide)
     _ _ (by simp [installPaths]) (by simp [installPaths])⟩

lemma joinPath_extends (a b : String) (hb : b.data.head? ≠ some '/')
    (hbne : b.data ≠ []) :
    ∃ t : List Char, t ≠ [] ∧ (joinPath a b).data = a.data ++ t := by
  unfold joinPath
  rw [if_neg hb]
  by_cases h : a.data = [] ∨ a.data.reverse.head? = some '/'
  · rw [if_pos h]
    exact ⟨b.data, hbne, by rw [String.data_append]⟩
  · rw [if_neg h]
    refine ⟨'/' :: b.data, by simp, ?_⟩
    rw [String.data_append, String.data_append]
    simp

/-- `p` extends `a` on the right by at least one character. -/
def StrExt (a p : String) : Prop :=
  ∃ t : List Char, t ≠ [] ∧ p.data = a.data ++ t

lemma strExt_join {a b : String} (hb : b.data.head? ≠ some '/') (hbne : b.data ≠ []) :
    StrExt a (joinPath a b) :=
  joinPath_extends a b hb hbne

lemma strExt_trans {a b c : String} (h1 : StrExt a b) (h2 : StrExt b c) : StrExt a c := by
  obtain ⟨t1, ht1, e1⟩ := h1
  obtain ⟨t2, ht2, e2⟩ := h2
  refine ⟨t1 ++ t2, ?_, by rw [e2, e1, List.append_assoc]⟩
  intro h
  rcases List.append_eq_nil.mp h with ⟨h', _⟩
  exact ht1 h'

lemma strExt_conclusion {a p : String} (h : StrExt a p) :
    a.data <+: p.data ∧ p ≠ a := by
  obtain ⟨t, ht, e⟩ := h
  refine ⟨⟨t, e.symm⟩, ?_⟩
  intro hpa
  rw [hpa] at e
  have := congrArg List.length e
  simp at this
  exact ht this

/-- C10: for every configuration and version identifier, every path
computed by the derived Path Resolver functions (repository path, release
zipfile path, extract path, executable path, build dir, built executable
path) has the base install path for the same identifier as a strict
prefix. -/
theorem c10_derived_paths_under_base (cfg : Config) (v : String)
    (p : String) (hp : p ∈ derivedPaths cfg v) :
    (get_base_install_path cfg v).data <+: p.data ∧ p ≠ get_base_install_path cfg v := by
  have hrepo : StrExt (get_base_install_path cfg v) (get_repository_path cfg v) :=
    strExt_join (by decide) (by decide)
  have hbuild : StrExt (get_base_install_path cfg v) (get_build_dir cfg v) :=
    strExt_trans hrepo (strExt_join (by decide) (by decide))
  have hextract : StrExt (get_base_install_path cfg v) (get_extract_path cfg v) :=
    strExt_join (by decide) (by decide)
  simp only [derivedPaths, List.mem_cons, List.not_mem_nil, or_false] at hp
  rcases hp with h | h | h | h | h | h <;> subst h
  · exact strExt_conclusion hrepo
  · exact strExt_conclusion (strExt_join (by decide) (by decide))
  · exact strExt_conclusion hextract
  · exact strExt_conclusion (strExt_trans hextract (strExt_join (by decide) (by decide)))
  · exact strExt_conclusion hbuild
  · exact strExt_conclusion
      (strExt_trans (strExt_trans hbuild (strExt_join (by decide) (by decide)))
        (strExt_join (by decide) (by decide)))

/-- C10 witness: the theorem applied at a concrete configuration, version
and derived path. -/
theorem c10_derived_paths_under_base_witness :
    get_built_executable_path sampleCfg V100_5_12 ∈ derivedPaths sampleCfg V100_5_12 ∧
    ((get_base_install_path sampleCfg V100_5_12).data <+:
        (get_built_executable_path sampleCfg V100_5_12).data ∧
      get_built_executable_path sampleCfg V100_5_12 ≠
        get_base_install_path sampleCfg V100_5_12) :=
  ⟨by simp [derivedPaths],
   c10_derived_paths_under_base sampleCfg V100_5_12 _ (by simp [derivedPaths])⟩

/-! ## Effectful pipeline: state, events, errors

Python exceptions do not roll back side effects already performed, so the
embedding returns the state alongside the result on both exit paths.
Filesystem effects of external tools (what git, wget, cmake or make write
to disk) are not tracked; the modelled filesystem records only the paths
the pipeline itself creates (`os.makedirs`, `os.symlink`) plus the checkout
produced by a successful clone. -/

/-- Destination of the child's stderr stream in a `subprocess` call.
`subprocess.STDOUT` is `toStdout`. -/
inductive StderrDest
  | inheritParent
  | toStdout
  | pipeSeparate
deriving Repr, DecidableEq

/-- Observable side effects of the pipeline, in order of occurrence. -/
inductive Event
  | println (msg : String)
  | runProcess (command : List String) (cwd : String) (stderrDest : StderrDest)
  | makedirs (path : String)
  | chmodPlusX (path : String)
  | symlink (source target : String)
deriving Repr, DecidableEq

/-- Process state: the tracked filesystem, the working directory, and the
log of side effects so far. -/
structure FState where
  fs : List String
  cwd : String
  trace : List Event
deriving Repr, DecidableEq

/-- The Python exceptions the pipeline can raise. -/
inductive PyErr
  | calledProcessError (command : List String) (returncode : Int) (output : Option String)
  | osError (msg : String)
  | keyError (msg : String)
  | valueError (msg : String)
  | fileExistsError (path : String)
deriving Repr, DecidableEq

/-- Result of a Python call: a returned value or a raised exception. -/
inductive PyResult (α : Type)
  | ok (a : α)
  | raised (e : PyErr)
deriving Repr, DecidableEq

def PyResult.map (f : α → β) : PyResult α → PyResult β
  | .ok a => .ok (f a)
  | .raised e => .raised e

/-- Sequencing of two Python statements: a raised exception propagates
past the rest of the function body, carrying the state as it was when the
exception was raised. -/
def pyBind {α β : Type} (r : PyResult α × FState)
    (k : α → FState → PyResult β × FState) : PyResult β × FState :=
  match r with
  | (.ok a, st) => k a st
  | (.raised e, st) => (.raised e, st)

def emit (st : FState) (e : Event) : FState :=
  { st with trace := st.trace ++ [e] }

def printLine (st : FState) (msg : String) : FState :=
  emit st (.println msg)

/-- Model of `os.path.exists` over the tracked filesystem. -/
def pathExists (fs : List String) (p : String) : Bool :=
  fs.contains p

/-- `is_git_repository(path)`: does `<path>/.git` exist? -/
def is_git_repository (fs : List String) (path : String) : Bool :=
  pathExists fs (joinPath path ".git")

/-- Model of `os.path.dirname` (posixpath): everything before the last
separator, with trailing separators stripped unless the head is all
separators. -/
def dirname (p : String) : String :=
  let revHead := p.data.reverse.dropWhile (fun c => c != '/')
  let head := revHead.reverse
  if head.all (fun c => c == '/') then String.mk head
  else String.mk (head.reverse.dropWhile (fun c => c == '/')).reverse

/-- `ensure_path_exists(dir_path)`: create the directory (and report `true`)
when absent. -/
def ensure_path_exists (st : FState) (dir_path : String) : Bool × FState :=
  if pathExists st.fs dir_path then (false, st)
  else
    let st := emit st (.makedirs dir_path)
    (true, { st with fs := dir_path :: st.fs })

/-- `ensure_parent_dir_exists(path)`. -/
def ensure_parent_dir_exists (st : FState) (path : String) : FState :=
  (ensure_path_exists st (dirname path)).2

/-- `chmod_plus_x(executable_path)`: sets the owner-execute bit; only the
event is tracked. -/
def chmod_plus_x (st : FState) (executable_path : String) : FState :=
  emit st (.chmodPlusX executable_path)

/-- `check_subprocess_call(command, message=None, stderr=subprocess.STDOUT,
**proc_kwargs)`.  The `stderr` parameter is accepted but the body passes
the literal `subprocess.STDOUT` to `subprocess.check_call`, so the
parameter is never forwarded.  `check_call` does not capture output, so a
nonzero exit raises `CalledProcessError` with `output=None`. -/
def check_subprocess_call (cfg : Config) (command : List String)
    (message : Option String) (stderrParam : StderrDest) (st : FState) :
    PyResult Int × FState :=
  let st := match message with
    | some m => printLine st m
    | none => st
  let st := printLine st ("Executing: " ++ String.intercalate " " command)
  let st := emit st (.runProcess command st.cwd .toStdout)
  let code := cfg.exitCode command
  if code = 0 then (.ok 0, st)
  else (.raised (.calledProcessError command code none), st)

/-- `check_subprocess_output(command, message=None, stderr=subprocess.STDOUT,
**proc_kwargs)`.  As above, but `check_output` captures the combined
stdout+stderr stream, returns it on success and attaches it to the raised
`CalledProcessError` on nonzero exit. -/
def check_subprocess_output (cfg : Config) (command : List String)
    (message : Option String) (stderrParam : StderrDest) (st : FState) :
    PyResult String × FState :=
  let st := match message with
    | some m => printLine st m
    | none => st
  let st := printLine st ("Executing: " ++ String.intercalate " " command)
  let st := emit st (.runProcess command st.cwd .toStdout)
  let code := cfg.exitCode command
  if code = 0 then (.ok (cfg.combinedOutput command), st)
  else (.raised (.calledProcessError command code (some (cfg.combinedOutput command))), st)

/-- The `chdir` context manager: run `body` with the working directory set
to `path`, restoring the previous working directory on every exit path
(the `finally` block runs whether `body` returns or raises). -/
def withChdir {α : Type} (path : String) (st : FState)
    (body : FState → PyResult α × FState) : PyResult α × FState :=
  let original_path := st.cwd
  let r := body { st with cwd := path }
  (r.1, { r.2 with cwd := original_path })

/-! ## Installation primitives (`install.py` lines 185-314) -/

/-- `get_platform()`: classify `sys.platform`, raising `KeyError` for
anything that is not `linux*`, `darwin` or `win32`. -/
def get_platform (sys_platform : String) : PyResult String :=
  if startswith sys_platform LINUX then .ok LINUX
  else if sys_platform = OSX then .ok OSX
  else if sys_platform = WINDOWS then .ok WINDOWS
  else .raised (.keyError ("Unknown platform: " ++ sys_platform))

/-- `clone_solidity_repository(identifier)`: requires `git` on the search
path, ensures the parent directory of the checkout exists, and runs
`git clone --recurse-submodules --branch <identifier> --depth 10 <uri>
<repository_path>`.  A successful clone creates the checkout, including
its `.git` metadata directory. -/
def clone_solidity_repository (cfg : Config) (st : FState) (identifier : String) :
    PyResult Int × FState :=
  if cfg.executableAvailable "git" = false then
    (.raised (.osError "The `git` is required but was not found"), st)
  else
    let repository_path := get_repository_path cfg identifier
    let st := ensure_parent_dir_exists st repository_path
    let command := ["git", "clone", "--recurse-submodules", "--branch", identifier,
                    "--depth", "10", SOLIDITY_GIT_URI, repository_path]
    pyBind (check_subprocess_call cfg command
        (some ("Checking out solidity repository @ " ++ identifier)) .toStdout st)
      (fun n st =>
        (.ok n, { st with fs := joinPath repository_path ".git" :: repository_path :: st.fs }))

/-- Release-artifact download URI for a version identifier (the
`DOWNLOAD_STATIC_RELEASE_URI_TEMPLATE` format string applied). -/
def download_release_uri (identifier : String) : String :=
  "https://github.com/Helios-Protocol/solidity/releases/download/" ++ identifier ++
    "/solc-static-linux"

/-- `download_static_release(identifier)`: wget the static binary straight
to the executable path, resuming partial downloads. -/
def download_static_release (cfg : Config) (st : FState) (identifier : String) :
    PyResult Int × FState :=
  let download_uri := download_release_uri identifier
  let static_binary_path := get_executable_path cfg identifier
  let st := ensure_parent_dir_exists st static_binary_path
  let command := ["wget", download_uri, "-c", "-O", static_binary_path]
  check_subprocess_call cfg command
    (some ("Downloading static linux binary from " ++ download_uri)) .toStdout st

/-- `install_solc_dependencies(identifier)`: requires an existing checkout,
then runs `scripts/install_deps.sh` from inside it under the `chdir`
context manager. -/
def install_solc_dependencies (cfg : Config) (st : FState) (identifier : String) :
    PyResult Int × FState :=
  let repository_path := get_repository_path cfg identifier
  if is_git_repository st.fs repository_path = false then
    (.raised (.osError ("Git repository not found @ " ++ repository_path)), st)
  else
    withChdir repository_path st (fun st =>
      let install_deps_script_path :=
        joinPath (joinPath repository_path "scripts") "install_deps.sh"
      check_subprocess_call cfg ["sh", install_deps_script_path]
        (some ("Running dependency installation script `install_deps.sh` @ " ++
          install_deps_script_path)) .toStdout st)

/-- `install_solc_from_static_linux(identifier)`: download the release
binary, mark it executable, and verify it answers `--version`. -/
def install_solc_from_static_linux (cfg : Config) (st : FState) (identifier : String) :
    PyResult Unit × FState :=
  pyBind (download_static_release cfg st identifier) (fun _ st =>
    let executable_path := get_executable_path cfg identifier
    let st := chmod_plus_x st executable_path
    let check_version_command := [executable_path, "--version"]
    pyBind (check_subprocess_output cfg check_version_command
        (some ("Checking installed executable version @ " ++ executable_path)) .toStdout st)
      (fun _ st =>
        (.ok (), printLine st ("solc successfully installed at: " ++ executable_path))))

/-- `build_solc_from_source(identifier)`: clone when no checkout exists,
create the build directory, run cmake and make from inside it, mark the
built binary executable and symlink the canonical executable path to it.
`os.symlink` raises `FileExistsError` when the link name already exists. -/
def build_solc_from_source (cfg : Config) (st : FState) (identifier : String) :
    PyResult Unit × FState :=
  pyBind (if is_git_repository st.fs (get_repository_path cfg identifier) then (.ok 0, st)
          else clone_solidity_repository cfg st identifier)
    (fun _ st =>
      let build_dir := get_build_dir cfg identifier
      let st := (ensure_path_exists st build_dir).2
      pyBind (withChdir build_dir st (fun st =>
          pyBind (check_subprocess_call cfg ["cmake", ".."]
              (some "Running cmake build command") .toStdout st)
            (fun _ st =>
              check_subprocess_call cfg ["make"] (some "Running make command") .toStdout st)))
        (fun _ st =>
          let built_executable_path := get_built_executable_path cfg identifier
          let st := chmod_plus_x st built_executable_path
          let executable_path := get_executable_path cfg identifier
          let st := ensure_parent_dir_exists st executable_path
          if pathExists st.fs executable_path then
            (.raised (.fileExistsError executable_path), st)
          else
            let st := emit st (.symlink built_executable_path executable_path)
            let st := { st with fs := executable_path :: st.fs }
            (.ok (), chmod_plus_x st executable_path)))

/-- `install_from_source(identifier)`: clone when no checkout exists, run
the dependency script, build from source, then report success. -/
def install_from_source (cfg : Config) (st : FState) (identifier : String) :
    PyResult Unit × FState :=
  pyBind (if is_git_repository st.fs (get_repository_path cfg identifier) then (.ok 0, st)
          else clone_solidity_repository cfg st identifier)
    (fun _ st =>
      pyBind (install_solc_dependencies cfg st identifier) (fun _ st =>
        pyBind (build_solc_from_source cfg st identifier) (fun _ st =>
          (.ok (), printLine st
            ("Succesfully installed solc @ `" ++ get_executable_path cfg identifier ++ "`")))))

/-! ## Install Dispatcher (`install.py` lines 343-377) -/

/-- The two acquisition strategies, each bound to a version identifier at
registration time (the dispatch table's partially applied entries). -/
inductive InstallFn
  | staticLinux (identifier : String)
  | fromSource (identifier : String)
deriving Repr, DecidableEq

def runInstallFn (cfg : Config) (st : FState) : InstallFn → PyResult Unit × FState
  | .staticLinux identifier => install_solc_from_static_linux cfg st identifier
  | .fromSource identifier => install_from_source cfg st identifier

/-- The static dispatch table `INSTALL_FUNCTIONS`. -/
def INSTALL_FUNCTIONS : List (String × List (String × InstallFn)) :=
  [(LINUX, [(V100_5_12, .staticLinux V100_5_12), (V100_5_15, .staticLinux V100_5_15)]),
   (OSX, [(V100_5_12, .fromSource V100_5_12), (V100_5_15, .fromSource V100_5_15)])]

/-- Python dict lookup. -/
def lookupTable {α : Type} (table : List (String × α)) (key : String) : Option α :=
  (table.find? (fun kv => kv.1 == key)).map Prod.snd

/-- Lexicographic comparison of character lists by code point (Python's
string ordering). -/
def charListLt : List Char → List Char → Bool
  | [], [] => false
  | [], _ :: _ => true
  | _ :: _, [] => false
  | a :: as, b :: bs =>
      if a.toNat < b.toNat then true
      else if b.toNat < a.toNat then false
      else charListLt as bs

/-- Python's `<` on strings. -/
def strLt (a b : String) : Bool := charListLt a.data b.data

def insertSorted (x : String) : List String → List String
  | [] => [x]
  | y :: ys => if strLt x y then x :: y :: ys else y :: insertSorted x ys

/-- Python `sorted` on a list of strings (insertion sort). -/
def sortedStrings : List String → List String
  | [] => []
  | x :: xs => insertSorted x (sortedStrings xs)

/-- The `UnsupportedPlatformError` message text raised by `install_solc`. -/
def unsupportedPlatformMessage (platform : String) : String :=
  "Installation of solidity is not supported on your platform (" ++ platform ++
    "). Supported platforms are: " ++
    String.intercalate ", " (sortedStrings (INSTALL_FUNCTIONS.map Prod.fst))

/-- The `UnsupportedVersionError` message text raised by `install_solc`. -/
def unsupportedVersionMessage (identifier : String) (versions : List (String × InstallFn)) :
    String :=
  "Installation of solidity==" ++ identifier ++ " is not supported.  Must be one of " ++
    String.intercalate ", " (sortedStrings (versions.map Prod.fst))

/-- `install_solc(identifier, platform=None)`: autodetect the platform when
not supplied, validate the (platform, version) pair against the dispatch
table, then run the bound strategy.  The Python function has no `return`
statement, so it returns `None` on success. -/
def install_solc (cfg : Config) (st : FState) (identifier : String)
    (platform : Option String) (sys_platform : String) :
    PyResult (Option String) × FState :=
  let platformR : PyResult String :=
    match platform with
    | none => get_platform sys_platform
    | some p => .ok p
  match platformR with
  | .raised e => (.raised e, st)
  | .ok platform =>
    match lookupTable INSTALL_FUNCTIONS platform with
    | none => (.raised (.valueError (unsupportedPlatformMessage platform)), st)
    | some versions =>
      match lookupTable versions identifier with
      | none => (.raised (.valueError (unsupportedVersionMessage identifier versions)), st)
      | some install_fn =>
          pyBind (runInstallFn cfg st install_fn)
            (fun _ st => (.ok (none : Option String), st))

/-! ## Structure lemmas for the effectful pipeline -/

/-- The events `check_subprocess_call` and `check_subprocess_output` append
to the trace (independently of the exit code). -/
def cscEvents (command : List String) (message : Option String) (cwd : String) :
    List Event :=
  (match message with
   | some m => [Event.println m]
   | none => []) ++
  [Event.println ("Executing: " ++ String.intercalate " " command),
   Event.runProcess command cwd .toStdout]

lemma pyBind_ok {α β : Type} (a : α) (st : FState)
    (k : α → FState → PyResult β × FState) :
    pyBind (.ok a, st) k = k a st := rfl

lemma pyBind_raised {α β : Type} (e : PyErr) (st : FState)
    (k : α → FState → PyResult β × FState) :
    pyBind (.raised e, st) k = (.raised e, st) := rfl

lemma pyBind_proj {γ : Type} (f : FState → γ) {α β : Type}
    (r : PyResult α × FState) (k : α → FState → PyResult β × FState) {x : γ}
    (hr : f r.2 = x) (hk : ∀ a st, f st = x → f ((k a st).2) = x) :
    f ((pyBind r k).2) = x := by
  rcases r with ⟨r1, st⟩
  cases r1 with
  | ok a => exact hk a st hr
  | raised e => exact hr

lemma csc_state (cfg : Config) (command : List String) (message : Option String)
    (sd : StderrDest) (st : FState) :
    (check_subprocess_call cfg command message sd st).2 =
      { st with trace := st.trace ++ cscEvents command message st.cwd } := by
  unfold check_subprocess_call cscEvents printLine emit
  cases message <;> dsimp only <;> split <;> simp

lemma cso_state (cfg : Config) (command : List String) (message : Option String)
    (sd : StderrDest) (st : FState) :
    (check_subprocess_output cfg command message sd st).2 =
      { st with trace := st.trace ++ cscEvents command message st.cwd } := by
  unfold check_subprocess_output cscEvents printLine emit
  cases message <;> dsimp only <;> split <;> simp

lemma csc_ok (cfg : Config) (command : List String) (message : Option String)
    (sd : StderrDest) (st : FState) (h : cfg.exitCode command = 0) :
    check_subprocess_call cfg command message sd st =
      (.ok 0, { st with trace := st.trace ++ cscEvents command message st.cwd }) := by
  unfold check_subprocess_call cscEvents printLine emit
  cases message <;> simp [h]

lemma csc_raised (cfg : Config) (command : List String) (message : Option String)
    (sd : StderrDest) (st : FState) (h : cfg.exitCode command ≠ 0) :
    check_subprocess_call cfg command message sd st =
      (.raised (.calledProcessError command (cfg.exitCode command) none),
       { st with trace := st.trace ++ cscEvents command message st.cwd }) := by
  unfold check_subprocess_call cscEvents printLine emit
  cases message <;> simp [h]

lemma csc_cwd (cfg : Config) (command : List String) (message : Option String)
    (sd : StderrDest) (st : FState) :
    (check_subprocess_call cfg command message sd st).2.cwd = st.cwd := by
  rw [csc_state]

lemma csc_fs (cfg : Config) (command : List String) (message : Option String)
    (sd : StderrDest) (st : FState) :
    (check_subprocess_call cfg command message sd st).2.fs = st.fs := by
  rw [csc_state]

lemma cso_cwd (cfg : Config) (command : List String) (message : Option String)
    (sd : StderrDest) (st : FState) :
    (check_subprocess_output cfg command message sd st).2.cwd = st.cwd := by
  rw [cso_state]

lemma epe_cwd (st : FState) (d : String) : (ensure_path_exists st d).2.cwd = st.cwd := by
  unfold ensure_path_exists
  split <;> rfl

lemma epe_fs_superset (st : FState) (d : String) :
    (ensure_path_exists st d).2.fs = st.fs ∨
      (ensure_path_exists st d).2.fs = d :: st.fs := by
  unfold ensure_path_exists
  split
  · exact Or.inl rfl
  · exact Or.inr rfl

lemma epe_trace (st : FState) (d : String) :
    (ensure_path_exists st d).2.trace = st.trace ∨
      (ensure_path_exists st d).2.trace = st.trace ++ [Event.makedirs d] := by
  unfold ensure_path_exists emit
  split
  · exact Or.inl rfl
  · exact Or.inr rfl

lemma epde_cwd (st : FState) (p : String) : (ensure_parent_dir_exists st p).cwd = st.cwd :=
  epe_cwd st (dirname p)

lemma epde_trace (st : FState) (p : String) :
    (ensure_parent_dir_exists st p).trace = st.trace ∨
      (ensure_parent_dir_exists st p).trace = st.trace ++ [Event.makedirs (dirname p)] :=
  epe_trace st (dirname p)

lemma chmod_cwd (st : FState) (p : String) : (chmod_plus_x st p).cwd = st.cwd := rfl

lemma chmod_fs (st : FState) (p : String) : (chmod_plus_x st p).fs = st.fs := rfl

lemma chmod_trace (st : FState) (p : String) :
    (chmod_plus_x st p).trace = st.trace ++ [Event.chmodPlusX p] := rfl

lemma withChdir_cwd {α : Type} (path : String) (st : FState)
    (body : FState → PyResult α × FState) :
    (withChdir path st body).2.cwd = st.cwd := rfl

lemma withChdir_trace {α : Type} (path : String) (st : FState)
    (body : FState → PyResult α × FState) :
    (withChdir path st body).2.trace = (body { st with cwd := path }).2.trace := rfl

lemma withChdir_fs {α : Type} (path : String) (st : FState)
    (body : FState → PyResult α × FState) :
    (withChdir path st body).2.fs = (body { st with cwd := path }).2.fs := rfl

lemma withChdir_fst {α : Type} (path : String) (st : FState)
    (body : FState → PyResult α × FState) :
    (withChdir path st body).1 = (body { st with cwd := path }).1 := rfl

lemma clone_cwd (cfg : Config) (st : FState) (identifier : String) :
    (clone_solidity_repository cfg st identifier).2.cwd = st.cwd := by
  unfold clone_solidity_repository
  split
  · rfl
  · apply pyBind_proj (fun s => s.cwd)
    · rw [csc_cwd, epde_cwd]
    · intro a st' h'
      exact h'

lemma deps_cwd (cfg : Config) (st : FState) (identifier : String) :
    (install_solc_dependencies cfg st identifier).2.cwd = st.cwd := by
  unfold install_solc_dependencies
  dsimp only
  split <;> rfl

lemma deps_fs (cfg : Config) (st : FState) (identifier : String) :
    (install_solc_dependencies cfg st identifier).2.fs = st.fs := by
  unfold install_solc_dependencies
  dsimp only
  split
  · rfl
  · rw [withChdir_fs, csc_fs]

lemma set_fs_cwd (st : FState) (l : List String) :
    ({ st with fs := l } : FState).cwd = st.cwd := rfl

lemma set_fs_trace (st : FState) (l : List String) :
    ({ st with fs := l } : FState).trace = st.trace := rfl

lemma emit_cwd (st : FState) (e : Event) : (emit st e).cwd = st.cwd := rfl

lemma emit_trace (st : FState) (e : Event) : (emit st e).trace = st.trace ++ [e] := rfl

lemma build_cwd (cfg : Config) (st : FState) (identifier : String) :
    (build_solc_from_source cfg st identifier).2.cwd = st.cwd := by
  unfold build_solc_from_source
  apply pyBind_proj (fun s => s.cwd)
  · split
    · rfl
    · exact clone_cwd cfg st identifier
  · intro a st' h'
    dsimp only
    apply pyBind_proj (fun s => s.cwd)
    · rw [withChdir_cwd, epe_cwd]
      exact h'
    · intro b st'' h''
      dsimp only
      split
      · rw [epde_cwd, chmod_cwd]
        exact h''
      · rw [chmod_cwd, set_fs_cwd, emit_cwd, epde_cwd, chmod_cwd]
        exact h''

/-- C7: on every exit path of the scoped working-directory change (the
`chdir` context manager) — normal return or raised exception — the working
directory after the step equals the working directory current before the
step, both for the combinator itself with an arbitrary body and for the
dependency-install and build steps that use it. -/
theorem c7_chdir_restores_cwd {α : Type} (path : String) (st : FState)
    (body : FState → PyResult α × FState) (cfg : Config) (identifier : String) :
    (withChdir path st body).2.cwd = st.cwd ∧
    (install_solc_dependencies cfg st identifier).2.cwd = st.cwd ∧
    (build_solc_from_source cfg st identifier).2.cwd = st.cwd :=
  ⟨withChdir_cwd path st body, deps_cwd cfg st identifier, build_cwd cfg st identifier⟩

/-! ## Event predicates for the idempotence and failure claims -/

/-- Does this event invoke the clone command (`git clone ...`)? -/
def isCloneEvent : Event → Bool
  | .runProcess command _ _ => decide (command.take 2 = ["git", "clone"])
  | _ => false

/-- Is this event the symlink-creation step? -/
def isSymlinkEvent : Event → Bool
  | .symlink _ _ => true
  | _ => false

lemma isClone_println (m : String) : isCloneEvent (.println m) = false := rfl

lemma isClone_makedirs (d : String) : isCloneEvent (.makedirs d) = false := rfl

lemma isClone_chmod (p : String) : isCloneEvent (.chmodPlusX p) = false := rfl

lemma isClone_symlink (s t : String) : isCloneEvent (.symlink s t) = false := rfl

lemma isClone_run (command : List String) (c : String) (sd : StderrDest) :
    isCloneEvent (.runProcess command c sd) = decide (command.take 2 = ["git", "clone"]) := rfl

lemma isSymlink_println (m : String) : isSymlinkEvent (.println m) = false := rfl

lemma isSymlink_makedirs (d : String) : isSymlinkEvent (.makedirs d) = false := rfl

lemma isSymlink_chmod (p : String) : isSymlinkEvent (.chmodPlusX p) = false := rfl

lemma isSymlink_run (command : List String) (c : String) (sd : StderrDest) :
    isSymlinkEvent (.runProcess command c sd) = false := rfl

lemma take2_ne {a : String} (rest : List String) (ha : a ≠ "git") :
    (a :: rest).take 2 ≠ ["git", "clone"] := by
  intro h
  rw [List.take_succ_cons] at h
  injection h with h1 _
  exact ha h1

lemma countP_cscEvents_clone {command : List String}
    (hc : command.take 2 ≠ ["git", "clone"]) (message : Option String) (cwd : String) :
    (cscEvents command message cwd).countP isCloneEvent = 0 := by
  cases message <;>
    simp [cscEvents, List.countP_cons, isClone_println, isClone_run, hc]

lemma countP_cscEvents_symlink (command : List String) (message : Option String)
    (cwd : String) :
    (cscEvents command message cwd).countP isSymlinkEvent = 0 := by
  cases message <;>
    simp [cscEvents, List.countP_cons, isSymlink_println, isSymlink_run]

lemma csc_clone_countP (cfg : Config) (command : List String) (message : Option String)
    (sd : StderrDest) (st : FState) (hc : command.take 2 ≠ ["git", "clone"]) :
    ((check_subprocess_call cfg command message sd st).2).trace.countP isCloneEvent =
      st.trace.countP isCloneEvent := by
  rw [csc_state]
  simp only [List.countP_append]
  rw [countP_cscEvents_clone hc]
  rfl

lemma epe_countP (p : Event → Bool) (st : FState) (d : String)
    (hmk : ∀ x, p (.makedirs x) = false) :
    ((ensure_path_exists st d).2).trace.countP p = st.trace.countP p := by
  rcases epe_trace st d with h | h <;> rw [h] <;>
    simp [List.countP_append, List.countP_cons, hmk]

lemma epde_countP (p : Event → Bool) (st : FState) (q : String)
    (hmk : ∀ x, p (.makedirs x) = false) :
    (ensure_parent_dir_exists st q).trace.countP p = st.trace.countP p :=
  epe_countP p st (dirname q) hmk

lemma chmod_countP (p : Event → Bool) (st : FState) (q : String)
    (hcm : ∀ x, p (.chmodPlusX x) = false) :
    (chmod_plus_x st q).trace.countP p = st.trace.countP p := by
  rw [chmod_trace]
  simp [List.countP_append, List.countP_cons, hcm]

lemma printLine_countP (p : Event → Bool) (st : FState) (m : String)
    (hpr : ∀ x, p (.println x) = false) :
    (printLine st m).trace.countP p = st.trace.countP p := by
  unfold printLine
  rw [emit_trace]
  simp [List.countP_append, List.countP_cons, hpr]

lemma deps_clone_countP (cfg : Config) (st : FState) (identifier : String) :
    ((install_solc_dependencies cfg st identifier).2).trace.countP isCloneEvent =
      st.trace.countP isCloneEvent := by
  unfold install_solc_dependencies
  dsimp only
  split
  · rfl
  · rw [withChdir_trace, csc_clone_countP _ _ _ _ _ (take2_ne _ (by decide))]

lemma build_clone_countP (cfg : Config) (st : FState) (identifier : String)
    (hgit : is_git_repository st.fs (get_repository_path cfg identifier) = true) :
    ((build_solc_from_source cfg st identifier).2).trace.countP isCloneEvent =
      st.trace.countP isCloneEvent := by
  unfold build_solc_from_source
  simp only [hgit, if_true]
  rw [pyBind_ok]
  apply pyBind_proj (fun s => s.trace.countP isCloneEvent)
  · rw [withChdir_trace]
    apply pyBind_proj (fun s => s.trace.countP isCloneEvent)
    · rw [csc_clone_countP _ _ _ _ _ (take2_ne _ (by decide))]
      exact epe_countP isCloneEvent st _ isClone_makedirs
    · intro a st'' h''
      rw [csc_clone_countP _ _ _ _ _ (take2_ne _ (by decide))]
      exact h''
  · intro b st'' h''
    dsimp only
    split
    · rw [epde_countP isCloneEvent _ _ isClone_makedirs,
          chmod_countP isCloneEvent _ _ isClone_chmod]
      exact h''
    · rw [chmod_countP isCloneEvent _ _ isClone_chmod, set_fs_trace, emit_trace]
      simp only [List.countP_append]
      rw [epde_countP isCloneEvent _ _ isClone_makedirs,
          chmod_countP isCloneEvent _ _ isClone_chmod]
      simp [List.countP_cons, isClone_symlink]
      exact h''

/-- C4: when a version-control metadata directory (`.git`) already exists
at the repository path, a run of the Source Build strategy
(`install_from_source`) never invokes the clone command: the number of
`git clone` invocations in the trace does not grow. -/
theorem c4_no_reclone (cfg : Config) (st : FState) (identifier : String)
    (hgit : is_git_repository st.fs (get_repository_path cfg identifier) = true) :
    ((install_from_source cfg st identifier).2).trace.countP isCloneEvent =
      st.trace.countP isCloneEvent := by
  unfold install_from_source
  simp only [hgit, if_true]
  rw [pyBind_ok]
  rcases hd : install_solc_dependencies cfg st identifier with ⟨r1, st'⟩
  have hfs : st'.fs = st.fs := by
    have h := deps_fs cfg st identifier
    rw [hd] at h
    exact h
  have htr : st'.trace.countP isCloneEvent = st.trace.countP isCloneEvent := by
    have h := deps_clone_countP cfg st identifier
    rw [hd] at h
    exact h
  cases r1 with
  | raised e => rw [pyBind_raised]; exact htr
  | ok a =>
      rw [pyBind_ok]
      have hgit' : is_git_repository st'.fs (get_repository_path cfg identifier) = true := by
        rw [hfs]; exact hgit
      apply pyBind_proj (fun s => s.trace.countP isCloneEvent)
      · rw [build_clone_countP cfg st' identifier hgit']
        exact htr
      · intro b st'' h''
        dsimp only
        rw [printLine_countP isCloneEvent _ _ isClone_println]
        exact h''

lemma clone_symlink_countP (cfg : Config) (st : FState) (identifier : String) :
    ((clone_solidity_repository cfg st identifier).2).trace.countP isSymlinkEvent =
      st.trace.countP isSymlinkEvent := by
  unfold clone_solidity_repository
  split
  · rfl
  · apply pyBind_proj (fun s => s.trace.countP isSymlinkEvent)
    · rw [csc_state]
      simp only [List.countP_append]
      rw [countP_cscEvents_symlink,
          epde_countP isSymlinkEvent _ _ isSymlink_makedirs]
      omega
    · intro a st' h'
      dsimp only
      rw [set_fs_trace]
      exact h'

lemma build_eq_cmake_fail (cfg : Config) (st : FState) (identifier : String)
    (n : Int) (st1 : FState)
    (hs1 : (if is_git_repository st.fs (get_repository_path cfg identifier)
            then ((.ok 0 : PyResult Int), st)
            else clone_solidity_repository cfg st identifier) = (.ok n, st1))
    (hcm : cfg.exitCode ["cmake", ".."] ≠ 0) :
    build_solc_from_source cfg st identifier =
      (.raised (.calledProcessError ["cmake", ".."] (cfg.exitCode ["cmake", ".."]) none),
       { (ensure_path_exists st1 (get_build_dir cfg identifier)).2 with
         trace := (ensure_path_exists st1 (get_build_dir cfg identifier)).2.trace ++
           cscEvents ["cmake", ".."] (some "Running cmake build command")
             (get_build_dir cfg identifier) }) := by
  unfold build_solc_from_source
  rw [hs1, pyBind_ok]
  unfold withChdir
  dsimp only
  rw [csc_raised _ _ _ _ _ hcm, pyBind_raised, pyBind_raised]

lemma build_eq_make_fail (cfg : Config) (st : FState) (identifier : String)
    (n : Int) (st1 : FState)
    (hs1 : (if is_git_repository st.fs (get_repository_path cfg identifier)
            then ((.ok 0 : PyResult Int), st)
            else clone_solidity_repository cfg st identifier) = (.ok n, st1))
    (hcm : cfg.exitCode ["cmake", ".."] = 0)
    (hmk : cfg.exitCode ["make"] ≠ 0) :
    build_solc_from_source cfg st identifier =
      (.raised (.calledProcessError ["make"] (cfg.exitCode ["make"]) none),
       { (ensure_path_exists st1 (get_build_dir cfg identifier)).2 with
         trace := ((ensure_path_exists st1 (get_build_dir cfg identifier)).2.trace ++
           cscEvents ["cmake", ".."] (some "Running cmake build command")
             (get_build_dir cfg identifier)) ++
           cscEvents ["make"] (some "Running make command")
             (get_build_dir cfg identifier) }) := by
  unfold build_solc_from_source
  rw [hs1, pyBind_ok]
  unfold withChdir
  dsimp only
  rw [csc_ok _ _ _ _ _ hcm, pyBind_ok, csc_raised _ _ _ _ _ hmk, pyBind_raised]

lemma step1_symlink_countP (cfg : Config) (st : FState) (identifier : String)
    (n : Int) (st1 : FState)
    (hs1 : (if is_git_repository st.fs (get_repository_path cfg identifier)
            then ((.ok 0 : PyResult Int), st)
            else clone_solidity_repository cfg st identifier) = (.ok n, st1)) :
    st1.trace.countP isSymlinkEvent = st.trace.countP isSymlinkEvent := by
  by_cases hg : is_git_repository st.fs (get_repository_path cfg identifier) = true
  · simp only [hg, if_true] at hs1
    have h2 := congrArg (fun r => r.2) hs1
    simp only at h2
    rw [← h2]
  · rw [Bool.not_eq_true] at hg
    simp only [hg, Bool.false_eq_true, if_false] at hs1
    have h := clone_symlink_countP cfg st identifier
    rw [hs1] at h
    exact h

/-- C5: in every run of the Source Build strategy that reaches the build
phase (the clone step was skipped because a checkout exists, or it
succeeded), if the configure step (`cmake`) or the compile step (`make`)
exits nonzero, the symlink-creation step is not executed and the failure
propagates to the caller as a `CalledProcessError` carrying that exact
failing command and its exit code. -/
theorem c5_build_failure_no_symlink (cfg : Config) (st : FState) (identifier : String)
    (n : Int) (st1 : FState)
    (hs1 : (if is_git_repository st.fs (get_repository_path cfg identifier)
            then ((.ok 0 : PyResult Int), st)
            else clone_solidity_repository cfg st identifier) = (.ok n, st1)) :
    (cfg.exitCode ["cmake", ".."] ≠ 0 →
      (build_solc_from_source cfg st identifier).1 =
        .raised (.calledProcessError ["cmake", ".."] (cfg.exitCode ["cmake", ".."]) none) ∧
      ((build_solc_from_source cfg st identifier).2).trace.countP isSymlinkEvent =
        st.trace.countP isSymlinkEvent) ∧
    (cfg.exitCode ["cmake", ".."] = 0 → cfg.exitCode ["make"] ≠ 0 →
      (build_solc_from_source cfg st identifier).1 =
        .raised (.calledProcessError ["make"] (cfg.exitCode ["make"]) none) ∧
      ((build_solc_from_source cfg st identifier).2).trace.countP isSymlinkEvent =
        st.trace.countP isSymlinkEvent) := by
  have h1cnt := step1_symlink_countP cfg st identifier n st1 hs1
  constructor
  · intro hcm
    rw [build_eq_cmake_fail cfg st identifier n st1 hs1 hcm]
    refine ⟨rfl, ?_⟩
    show ((ensure_path_exists st1 (get_build_dir cfg identifier)).2.trace ++
      cscEvents ["cmake", ".."] (some "Running cmake build command")
        (get_build_dir cfg identifier)).countP isSymlinkEvent = _
    simp only [List.countP_append]
    rw [countP_cscEvents_symlink,
        epe_countP isSymlinkEvent _ _ isSymlink_makedirs, h1cnt]
    omega
  · intro hcm hmk
    rw [build_eq_make_fail cfg st identifier n st1 hs1 hcm hmk]
    refine ⟨rfl, ?_⟩
    show (((ensure_path_exists st1 (get_build_dir cfg identifier)).2.trace ++
      cscEvents ["cmake", ".."] (some "Running cmake build command")
        (get_build_dir cfg identifier)) ++
      cscEvents ["make"] (some "Running make command")
        (get_build_dir cfg identifier)).countP isSymlinkEvent = _
    simp only [List.countP_append]
    rw [countP_cscEvents_symlink, countP_cscEvents_symlink,
        epe_countP isSymlinkEvent _ _ isSymlink_makedirs, h1cnt]
    omega

/-! ## Dispatcher theorems -/

/-- A configuration whose external commands all fail with exit code 1. -/
def cfgFail : Config where
  solcBaseInstallPath := some "/opt/solc"
  home := "/home/user"
  executableAvailable := fun _ => true
  exitCode := fun _ => 1
  combinedOutput := fun _ => "error: build failed"

/-- An initial state: empty tracked filesystem, root working directory. -/
def st0 : FState where
  fs := []
  cwd := "/"
  trace := []

/-- A state in which the version-control checkout for `v100.5.12` under
`/opt/solc` already exists (its `.git` metadata directory is present). -/
def stWithCheckout : FState where
  fs := ["/opt/solc/solc-v100.5.12/source/.git"]
  cwd := "/"
  trace := []

/-- The dispatch-table row for darwin. -/
def osxVersions : List (String × InstallFn) :=
  [(V100_5_12, .fromSource V100_5_12), (V100_5_15, .fromSource V100_5_15)]

/-- C9: the stderr keyword parameter of `check_subprocess_call` and
`check_subprocess_output` has no effect: for any two values of that
parameter and the same command and remaining arguments, the functions
return the same value and the same final state, because the body passes
the literal `subprocess.STDOUT` to the subprocess regardless of the
parameter. -/
theorem c9_stderr_param_ignored (cfg : Config) (command : List String)
    (message : Option String) (s1 s2 : StderrDest) (st : FState) :
    check_subprocess_call cfg command message s1 st =
      check_subprocess_call cfg command message s2 st ∧
    check_subprocess_output cfg command message s1 st =
      check_subprocess_output cfg command message s2 st :=
  ⟨rfl, rfl⟩

/-- C6 (amended): on nonzero exit both Process Runner functions raise a
`CalledProcessError` carrying the full command vector and the exit code;
`check_subprocess_output` additionally carries the captured stdout+stderr
merged stream, while `check_subprocess_call` carries no captured output
(`subprocess.check_call` does not capture the stream). -/
theorem c6_runner_error_contents (cfg : Config) (command : List String)
    (message : Option String) (sd : StderrDest) (st : FState)
    (h : cfg.exitCode command ≠ 0) :
    (check_subprocess_call cfg command message sd st).1 =
      .raised (.calledProcessError command (cfg.exitCode command) none) ∧
    (check_subprocess_output cfg command message sd st).1 =
      .raised (.calledProcessError command (cfg.exitCode command)
        (some (cfg.combinedOutput command))) := by
  constructor
  · rw [csc_raised _ _ _ _ _ h]
  · unfold check_subprocess_output
    cases message <;> simp [h]

/-- C6 witness: the amended theorem applied at a failing `make` command. -/
theorem c6_runner_error_contents_witness :
    cfgFail.exitCode ["make"] ≠ 0 ∧
    ((check_subprocess_call cfgFail ["make"] none .toStdout st0).1 =
      .raised (.calledProcessError ["make"] (cfgFail.exitCode ["make"]) none) ∧
    (check_subprocess_output cfgFail ["make"] none .toStdout st0).1 =
      .raised (.calledProcessError ["make"] (cfgFail.exitCode ["make"])
        (some (cfgFail.combinedOutput ["make"])))) :=
  ⟨by decide, c6_runner_error_contents cfgFail ["make"] none .toStdout st0 (by decide)⟩

/-- C6 counterexample: a command fails with captured combined output
`"error: build failed"`, yet the error raised by `check_subprocess_call`
carries no captured stream (`output = None`), so the claim that the
runner's error always carries the captured stdout+stderr is false for
`check_subprocess_call`. -/
theorem c6_counterexample :
    (check_subprocess_call cfgFail ["make"] none .toStdout st0).1 =
      .raised (.calledProcessError ["make"] 1 none) ∧
    cfgFail.combinedOutput ["make"] = "error: build failed" ∧
    (none : Option String) ≠ some (cfgFail.combinedOutput ["make"]) := by
  refine ⟨by decide, rfl, by decide⟩

/-- C2 (amended): for every registered (platform, version) pair, when the
dispatched strategy function completes without raising, `install_solc`
completes successfully but returns `None` (the function body has no
return statement), not the canonical executable path. -/
theorem c2_install_returns_none (cfg : Config) (st : FState)
    (identifier p sys_platform : String)
    (versions : List (String × InstallFn)) (fn : InstallFn)
    (h1 : lookupTable INSTALL_FUNCTIONS p = some versions)
    (h2 : lookupTable versions identifier = some fn)
    (h3 : (runInstallFn cfg st fn).1 = .ok ()) :
    install_solc cfg st identifier (some p) sys_platform =
      (.ok (none : Option String), (runInstallFn cfg st fn).2) := by
  unfold install_solc
  dsimp only
  rw [h1]
  dsimp only
  rw [h2]
  dsimp only
  rcases hr : runInstallFn cfg st fn with ⟨r1, st'⟩
  rw [hr] at h3
  cases r1 with
  | ok a => rw [pyBind_ok]
  | raised e => exact absurd h3 (by simp [PyResult.map])

/-- C2 witness: the amended theorem applied at a concrete succeeding
install of `v100.5.12` on linux. -/
theorem c2_install_returns_none_witness :
    (lookupTable INSTALL_FUNCTIONS LINUX =
        some [(V100_5_12, .staticLinux V100_5_12), (V100_5_15, .staticLinux V100_5_15)] ∧
      lookupTable [(V100_5_12, InstallFn.staticLinux V100_5_12),
        (V100_5_15, InstallFn.staticLinux V100_5_15)] V100_5_12 =
        some (.staticLinux V100_5_12) ∧
      (runInstallFn sampleCfg st0 (.staticLinux V100_5_12)).1 = .ok ()) ∧
    install_solc sampleCfg st0 V100_5_12 (some LINUX) LINUX =
      (.ok (none : Option String), (runInstallFn sampleCfg st0 (.staticLinux V100_5_12)).2) :=
  ⟨⟨by decide, by decide, by decide⟩,
   c2_install_returns_none sampleCfg st0 V100_5_12 LINUX LINUX
     [(V100_5_12, .staticLinux V100_5_12), (V100_5_15, .staticLinux V100_5_15)]
     (.staticLinux V100_5_12) (by decide) (by decide) (by decide)⟩

/-- C2 counterexample: with every external command succeeding,
`install_solc("v100.5.12", "linux")` returns `None`, which is not the
canonical executable path for that identifier — refuting the claim that
`install_solc` returns the canonical executable path. -/
theorem c2_counterexample :
    (install_solc sampleCfg st0 V100_5_12 (some LINUX) LINUX).1 =
      .ok (none : Option String) ∧
    (.ok (some (get_executable_path sampleCfg V100_5_12)) : PyResult (Option String)) ≠
      .ok (none : Option String) := by
  refine ⟨by decide, by decide⟩

/-- C3: for every platform registered in the dispatch table and every
version identifier not registered under it, `install_solc` raises the
unsupported-version `ValueError` whose message lists exactly the versions
registered for that platform, with the state untouched (no strategy
invoked, no filesystem mutation). -/
theorem c3_unsupported_version (cfg : Config) (st : FState)
    (identifier p sys_platform : String) (versions : List (String × InstallFn))
    (h1 : lookupTable INSTALL_FUNCTIONS p = some versions)
    (h2 : lookupTable versions identifier = none) :
    install_solc cfg st identifier (some p) sys_platform =
      (.raised (.valueError (unsupportedVersionMessage identifier versions)), st) ∧
    versions.map Prod.fst = [V100_5_12, V100_5_15] ∧
    String.intercalate ", " (sortedStrings (versions.map Prod.fst)) =
      "v100.5.12, v100.5.15" := by
  have hv : versions.map Prod.fst = [V100_5_12, V100_5_15] := by
    by_cases e1 : p = LINUX
    · subst e1
      have hl : lookupTable INSTALL_FUNCTIONS LINUX =
          some [(V100_5_12, InstallFn.staticLinux V100_5_12),
                (V100_5_15, InstallFn.staticLinux V100_5_15)] := by decide
      rw [hl] at h1
      injection h1 with h1
      rw [← h1]
      decide
    · by_cases e2 : p = OSX
      · subst e2
        have hl : lookupTable INSTALL_FUNCTIONS OSX =
            some [(V100_5_12, InstallFn.fromSource V100_5_12),
                  (V100_5_15, InstallFn.fromSource V100_5_15)] := by decide
        rw [hl] at h1
        injection h1 with h1
        rw [← h1]
        decide
      · exfalso
        have b1 : (LINUX == p) = false := by
          rw [beq_eq_false_iff_ne]
          exact fun h => e1 h.symm
        have b2 : (OSX == p) = false := by
          rw [beq_eq_false_iff_ne]
          exact fun h => e2 h.symm
        have hl : lookupTable INSTALL_FUNCTIONS p = none := by
          unfold lookupTable INSTALL_FUNCTIONS
          simp [List.find?, b1, b2]
        rw [hl] at h1
        cases h1
  refine ⟨?_, hv, by rw [hv]; decide⟩
  unfold install_solc
  dsimp only
  rw [h1]
  dsimp only
  rw [h2]

/-- C3 witness: the theorem applied to darwin and the unregistered version
`v0.0.0`. -/
theorem c3_unsupported_version_witness :
    (lookupTable INSTALL_FUNCTIONS OSX = some osxVersions ∧
      lookupTable osxVersions "v0.0.0" = none) ∧
    (install_solc sampleCfg st0 "v0.0.0" (some OSX) OSX =
      (.raised (.valueError (unsupportedVersionMessage "v0.0.0" osxVersions)), st0) ∧
    osxVersions.map Prod.fst = [V100_5_12, V100_5_15] ∧
    String.intercalate ", " (sortedStrings (osxVersions.map Prod.fst)) =
      "v100.5.12, v100.5.15") :=
  ⟨⟨by decide, by decide⟩,
   c3_unsupported_version sampleCfg st0 "v0.0.0" OSX OSX osxVersions
     (by decide) (by decide)⟩

/-- C8: autodetection on a `sys.platform` outside linux*/darwin/win32
raises the `KeyError` from `get_platform` (with no supported-platform
listing and the state untouched) before the dispatcher's
unsupported-platform validation can run; a recognized but unregistered
platform such as win32 instead reaches the dispatcher's
unsupported-platform `ValueError` with its platform listing. -/
theorem c8_unknown_platform_keyerror (cfg : Config) (st : FState)
    (identifier sys_platform : String)
    (hl : startswith sys_platform LINUX = false)
    (hd : sys_platform ≠ OSX) (hw : sys_platform ≠ WINDOWS) :
    install_solc cfg st identifier none sys_platform =
      (.raised (.keyError ("Unknown platform: " ++ sys_platform)), st) ∧
    install_solc cfg st identifier none WINDOWS =
      (.raised (.valueError (unsupportedPlatformMessage WINDOWS)), st) ∧
    unsupportedPlatformMessage WINDOWS =
      "Installation of solidity is not supported on your platform (win32). " ++
        "Supported platforms are: darwin, linux" := by
  refine ⟨?_, ?_, by decide⟩
  · unfold install_solc get_platform
    dsimp only
    rw [hl]
    simp only [Bool.false_eq_true, if_false, if_neg hd, if_neg hw]
  · rfl

/-- C8 witness: the theorem applied at the unrecognized platform string
`freebsd`. -/
theorem c8_unknown_platform_keyerror_witness :
    (startswith "freebsd" LINUX = false ∧ ("freebsd" : String) ≠ OSX ∧
      ("freebsd" : String) ≠ WINDOWS) ∧
    (install_solc sampleCfg st0 V100_5_12 none "freebsd" =
      (.raised (.keyError ("Unknown platform: " ++ "freebsd")), st0) ∧
    install_solc sampleCfg st0 V100_5_12 none WINDOWS =
      (.raised (.valueError (unsupportedPlatformMessage WINDOWS)), st0) ∧
    unsupportedPlatformMessage WINDOWS =
      "Installation of solidity is not supported on your platform (win32). " ++
        "Supported platforms are: darwin, linux") :=
  ⟨⟨by decide, by decide, by decide⟩,
   c8_unknown_platform_keyerror sampleCfg st0 V100_5_12 "freebsd"
     (by decide) (by decide) (by decide)⟩

/-- C4 witness: the idempotence theorem applied at a state where the
checkout for `v100.5.12` already exists. -/
theorem c4_no_reclone_witness :
    is_git_repository stWithCheckout.fs (get_repository_path sampleCfg V100_5_12) = true ∧
    ((install_from_source sampleCfg stWithCheckout V100_5_12).2).trace.countP isCloneEvent =
      stWithCheckout.trace.countP isCloneEvent :=
  ⟨by decide, c4_no_reclone sampleCfg stWithCheckout V100_5_12 (by decide)⟩

/-- C5 witness: the build-failure theorem applied at a configuration in
which every external command (in particular cmake) exits with code 1 and a
state where the checkout already exists (so the clone phase is a skip). -/
theorem c5_build_failure_no_symlink_witness :
    (if is_git_repository stWithCheckout.fs (get_repository_path cfgFail V100_5_12)
     then ((.ok 0 : PyResult Int), stWithCheckout)
     else clone_solidity_repository cfgFail stWithCheckout V100_5_12) =
      (.ok 0, stWithCheckout) ∧
    ((cfgFail.exitCode ["cmake", ".."] ≠ 0 →
      (build_solc_from_source cfgFail stWithCheckout V100_5_12).1 =
        .raised (.calledProcessError ["cmake", ".."]
          (cfgFail.exitCode ["cmake", ".."]) none) ∧
      ((build_solc_from_source cfgFail stWithCheckout V100_5_12).2).trace.countP
          isSymlinkEvent =
        stWithCheckout.trace.countP isSymlinkEvent) ∧
    (cfgFail.exitCode ["cmake", ".."] = 0 → cfgFail.exitCode ["make"] ≠ 0 →
      (build_solc_from_source cfgFail stWithCheckout V100_5_12).1 =
        .raised (.calledProcessError ["make"] (cfgFail.exitCode ["make"]) none) ∧
      ((build_solc_from_source cfgFail stWithCheckout V100_5_12).2).trace.countP
          isSymlinkEvent =
        stWithCheckout.trace.countP isSymlinkEvent)) :=
  ⟨by decide,
   c5_build_failure_no_symlink cfgFail stWithCheckout V100_5_12 0 stWithCheckout
     (by decide)⟩

end HeliosSolc
